import Mathlib

/-!
Verification of the product-search and AI-recommendation backend.

The development shallowly embeds the relevant Python modules:
`search/strategies.py` (the five search strategies, the search context and
the strategy factory), `search/views.py` (`search_products`,
`create_product`), `search/api_views.py` (`advanced_search`, the
recommendation `generate` endpoint) and
`chat_recomendaciones/factories.py` (the AI generator factory and the
text/image generators).  Django querysets become `List Product`; a raised
exception becomes an `Except.error`; outbound HTTP calls become explicit
oracle arguments describing the response the network would give.
-/

namespace Taller1

/-! ### Python string primitives

`pyStrip`, `pyLower` and `pyWords` model Python's `str.strip()`,
`str.lower()` (ASCII letters, exactly what `Char.toLower` does) and
`re.split(r'\s+', s)` followed by dropping empty pieces.  `subOccurs`
models the Python substring test `sub in s`. -/

/-- Characters of `l` with leading and trailing whitespace removed, as in
Python `str.strip()`. -/
def trimChars (l : List Char) : List Char :=
  ((l.dropWhile Char.isWhitespace).reverse.dropWhile Char.isWhitespace).reverse

/-- Python `s.strip()`. -/
def pyStrip (s : String) : String :=
  String.mk (trimChars s.data)

/-- Python `s.lower()` (per-character ASCII lowercasing). -/
def pyLower (s : String) : String :=
  String.mk (s.data.map Char.toLower)

/-- Does `sub` occur as a contiguous sublist of `l`?  Models Python
`sub in s` on the underlying characters. -/
def subOccurs (sub : List Char) : List Char → Bool
  | [] => sub.isEmpty
  | c :: rest => sub.isPrefixOf (c :: rest) || subOccurs sub rest

/-- Python `sub in s` for strings. -/
def strContains (s sub : String) : Bool :=
  subOccurs sub.data s.data

/-- Case-insensitive containment, the semantics of Django `icontains`. -/
def strContainsCI (s sub : String) : Bool :=
  strContains (pyLower s) (pyLower sub)

/-- Accumulator-based splitting of a character list into maximal runs of
non-whitespace characters (`cur` holds the current word reversed). -/
def wordsAux : List Char → List Char → List (List Char)
  | cur, [] => if cur.isEmpty then [] else [cur.reverse]
  | cur, c :: rest =>
    if c.isWhitespace then
      if cur.isEmpty then wordsAux [] rest else cur.reverse :: wordsAux [] rest
    else
      wordsAux (c :: cur) rest

/-- The whitespace-separated words of a string, empty pieces dropped:
Python `[w.strip() for w in re.split(r'\s+', s) if w.strip()]`. -/
def pyWords (s : String) : List String :=
  (wordsAux [] s.data).map String.mk

/-- Python truthiness of an optional string (`None` and `""` are falsy). -/
def truthyStr : Option String → Bool
  | none => false
  | some s => decide (s ≠ "")

/-- Python truthiness of an optional decimal (`None` and `0` are falsy). -/
def truthyQ : Option ℚ → Bool
  | none => false
  | some v => decide (v ≠ 0)

/-! ### Data model

One row of the product table (`search.models.Search`) and one row of the
recommendation table (`chat_recomendaciones.models.Recomendacion`). -/

/-- A product row: `id`, `name`, `category`, `price`, `images`. -/
structure Product where
  id : Nat
  name : String
  category : String
  price : ℚ
  images : List String
deriving DecidableEq, Repr

/-- A stored recommendation row. -/
structure Recomendacion where
  descripcion : String
  producto_recomendado : String
  imagen_url : String
deriving DecidableEq, Repr

/-! ### The five search strategies (`search/strategies.py`) -/

/-- `ExactMatchStrategy.search`: empty result on an all-whitespace query,
otherwise the rows whose name or category matches the query ignoring case
(Django `iexact`). -/
def exact_match_search (qs : List Product) (query : String) : List Product :=
  if pyStrip query = "" then []
  else qs.filter fun p =>
    pyLower p.name == pyLower query || pyLower p.category == pyLower query

/-- `ContainsStrategy.search`: empty result on an all-whitespace query,
otherwise the rows whose name or category contains the query ignoring case
(Django `icontains`), de-duplicated (`.distinct()`). -/
def contains_search (qs : List Product) (query : String) : List Product :=
  if pyStrip query = "" then []
  else (qs.filter fun p =>
    strContainsCI p.name query || strContainsCI p.category query).dedup

/-- The lowercased query words used by the fuzzy strategy. -/
def queryWords (query : String) : List String :=
  pyWords (pyLower query)

/-- Does some query word occur (case-insensitively) in the product's name
or category?  This is the filter of `FuzzySearchStrategy.search`. -/
def fuzzyMatches (words : List String) (p : Product) : Bool :=
  words.any fun w => strContainsCI p.name w || strContainsCI p.category w

/-- The relevance score of `FuzzySearchStrategy._order_by_relevance`:
3 per word contained in the lowercased name, 2 per word contained in the
lowercased category, plus 5 per word equal to the entire lowercased name. -/
def relevance (words : List String) (p : Product) : Nat :=
  words.foldl
    (fun acc w =>
      acc + (if strContains (pyLower p.name) w then 3 else 0)
          + (if strContains (pyLower p.category) w then 2 else 0)
          + (if w == pyLower p.name then 5 else 0))
    0

/-- `FuzzySearchStrategy._order_by_relevance`: sort the filtered rows by
non-increasing relevance score (Python `sort(key=..., reverse=True)`). -/
def order_by_relevance (results : List Product) (words : List String) : List Product :=
  results.mergeSort fun a b => decide (relevance words b ≤ relevance words a)

/-- `FuzzySearchStrategy.search`. -/
def fuzzy_search (qs : List Product) (query : String) : List Product :=
  if pyStrip query = "" then []
  else
    let words := queryWords query
    if words.isEmpty then []
    else order_by_relevance ((qs.filter (fuzzyMatches words)).dedup) words

/-- `PriceRangeStrategy.search`: filter by the supplied bounds; the text
query argument is not used. -/
def price_range_search (qs : List Product) (_query : String)
    (min_price max_price : Option ℚ) : List Product :=
  match min_price, max_price with
  | some mn, some mx => qs.filter fun p => decide (mn ≤ p.price) && decide (p.price ≤ mx)
  | some mn, none => qs.filter fun p => decide (mn ≤ p.price)
  | none, some mx => qs.filter fun p => decide (p.price ≤ mx)
  | none, none => qs

/-- `CategoryStrategy.search`: empty result without a category, otherwise
filter by category (`icontains`), then by the stripped query inside the
category when one is present. -/
def category_search (qs : List Product) (query : String)
    (category : Option String) : List Product :=
  match category with
  | none => []
  | some c =>
    if c = "" then []
    else
      let results := qs.filter fun p => strContainsCI p.category c
      if pyStrip query ≠ "" then
        results.filter fun p => strContainsCI p.name (pyStrip query)
      else results

/-! ### Strategy factory and search context -/

/-- The five strategy kinds handled by `SearchStrategyFactory`. -/
inductive StrategyKind where
  | exact
  | contains
  | fuzzy
  | price_range
  | category
deriving DecidableEq, Repr

/-- `SearchStrategyFactory.get_available_strategies()`. -/
def available_strategies : List String :=
  ["exact", "contains", "fuzzy", "price_range", "category"]

/-- `SearchStrategyFactory.create_strategy`: dictionary dispatch over the
five keys, raising `ValueError` (an `Except.error`) otherwise. -/
def create_strategy (strategy_type : String) : Except String StrategyKind :=
  if strategy_type = "exact" then .ok .exact
  else if strategy_type = "contains" then .ok .contains
  else if strategy_type = "fuzzy" then .ok .fuzzy
  else if strategy_type = "price_range" then .ok .price_range
  else if strategy_type = "category" then .ok .category
  else .error ("Estrategia " ++ strategy_type ++
    " no soportada. Disponibles: exact, contains, fuzzy, price_range, category")

/-- `get_strategy_name` of each strategy class. -/
def strategy_name : StrategyKind → String
  | .exact => "exact_match"
  | .contains => "contains"
  | .fuzzy => "fuzzy"
  | .price_range => "price_range"
  | .category => "category"

/-- The keyword arguments a strategy may receive. -/
structure SearchParams where
  min_price : Option ℚ
  max_price : Option ℚ
  category : Option String
deriving DecidableEq, Repr

/-- Dispatch of `search` over the strategy kinds. -/
def strategy_search (k : StrategyKind) (qs : List Product) (query : String)
    (params : SearchParams) : List Product :=
  match k with
  | .exact => exact_match_search qs query
  | .contains => contains_search qs query
  | .fuzzy => fuzzy_search qs query
  | .price_range => price_range_search qs query params.min_price params.max_price
  | .category => category_search qs query params.category

/-- A configured strategy as seen by `SearchContext`: a name together with
a `search` implementation that may raise (`Except.error`). -/
structure StrategyImpl where
  name : String
  run : List Product → String → SearchParams → Except String (List Product)

/-- The result dictionary produced by `SearchContext.execute_search`. -/
structure SearchResult where
  success : Bool
  error : Option String
  results : List Product
  count : Nat
  strategy_used : String
  query : String
deriving DecidableEq, Repr

/-- `SearchContext.execute_search`: run the configured strategy, catching
any exception and reporting it as an error dictionary. -/
def execute_search (impl : StrategyImpl) (qs : List Product) (query : String)
    (params : SearchParams) : SearchResult :=
  match impl.run qs query params with
  | .ok results => ⟨true, none, results, results.length, impl.name, query⟩
  | .error e => ⟨false, some e, [], 0, impl.name, query⟩

/-! ### Strategy selection in the views

`search_products` (`search/views.py`) works on raw GET parameters
(optional strings); `ProductViewSet.advanced_search`
(`search/api_views.py`) works on serializer-validated data, where the
price bounds are decimals (modelled as `ℚ`) and `q`/`category` arrive
already trimmed. -/

/-- Strategy chosen by `search_products` from the stripped `category` and
`search_type` parameters and the raw price parameters. -/
def search_products_select (category search_type : String)
    (min_price max_price : Option String) : StrategyKind :=
  if truthyStr min_price || truthyStr max_price then .price_range
  else if category ≠ "" then .category
  else
    match create_strategy
        (if available_strategies.contains search_type then search_type else "contains") with
    | .ok k => k
    | .error _ => .contains

/-- Strategy chosen by `search_products` from the raw GET parameters
(`q` is unused for selection but stripped alongside the others). -/
def search_products_strategy (category search_type : Option String)
    (min_price max_price : Option String) : StrategyKind :=
  search_products_select (pyStrip (category.getD ""))
    (pyStrip (search_type.getD "contains")) min_price max_price

/-- Strategy chosen by `advanced_search` from the validated data. -/
def advanced_select (category search_type : String)
    (min_price max_price : Option ℚ) : StrategyKind :=
  if truthyQ min_price || truthyQ max_price then .price_range
  else if category ≠ "" then .category
  else
    match create_strategy
        (if available_strategies.contains search_type then search_type else "contains") with
    | .ok k => k
    | .error _ => .contains

/-- The product list computed by `advanced_search`: price branch (with the
extra name filter when a query is present), category branch, or dispatch
on `search_type` with fallback to `contains`. -/
def advanced_search_results (db : List Product) (q category search_type : String)
    (min_price max_price : Option ℚ) : List Product :=
  if truthyQ min_price || truthyQ max_price then
    if q ≠ "" then
      (price_range_search db q (if truthyQ min_price then min_price else none)
        (if truthyQ max_price then max_price else none)).filter
        (fun p => strContainsCI p.name q)
    else
      price_range_search db q (if truthyQ min_price then min_price else none)
        (if truthyQ max_price then max_price else none)
  else if category ≠ "" then category_search db q (some category)
  else
    match create_strategy
        (if available_strategies.contains search_type then search_type else "contains") with
    | .ok k => strategy_search k db q ⟨none, none, none⟩
    | .error _ => []

/-! ### `create_product` (`search/views.py`) -/

/-- A fresh primary key for an insertion. -/
def next_id (db : List Product) : Nat :=
  db.foldl (fun acc p => max acc p.id) 0 + 1

/-- `create_product`: on a POST whose body supplies a truthy `name` that
no existing product has, insert a product with category `"Desconocida"`,
price `0.0` and no images and answer success; otherwise leave the table
unchanged and answer failure.  The result is the new table, the `success`
flag and the error message, if any. -/
def create_product (db : List Product) (method : String) (name : Option String) :
    List Product × Bool × Option String :=
  if method = "POST" then
    match name with
    | some n =>
      if n ≠ "" && !(db.any fun p => p.name == n) then
        (db ++ [⟨next_id db, n, "Desconocida", 0, []⟩], true, none)
      else (db, false, some "Producto ya existe")
    | none => (db, false, some "Producto ya existe")
  else (db, false, some "Método no permitido")

/-! ### AI generator factory (`chat_recomendaciones/factories.py`) -/

/-- The two generator kinds handled by `AIGeneratorFactory`. -/
inductive GenKind where
  | text
  | image
deriving DecidableEq, Repr

/-- `AIGeneratorFactory.create_generator`: dictionary dispatch over the
keys `"text"` and `"image"`, raising `ValueError` otherwise. -/
def create_generator (generator_type : String) : Except String GenKind :=
  if generator_type = "text" then .ok .text
  else if generator_type = "image" then .ok .image
  else .error ("Tipo de generador " ++ generator_type ++
    " no soportado. Tipos disponibles: text, image")

/-- The result dictionary produced by a generator's `generate`. -/
structure GenResult where
  success : Bool
  content : Option String
  error : Option String
deriving DecidableEq, Repr

/-- The response the inference host would give to an outbound request:
status code, base64 of the body, and the body text (used in error
messages).  A network failure is an `Except.error`. -/
structure ApiResponse where
  status_code : Nat
  body_b64 : String
  text : String
deriving DecidableEq, Repr

/-- The forbidden substrings of `ImageGenerator.validate_input`. -/
def forbidden_words : List String :=
  ["violence", "weapon", "drug"]

/-- `ImageGenerator.validate_input`: the prompt must not be empty or
all-whitespace and its lowercasing must contain no forbidden word. -/
def image_validate_input (prompt : String) : Bool :=
  if pyStrip prompt = "" then false
  else !(forbidden_words.any fun w => strContains (pyLower prompt) w)

/-- `ImageGenerator.generate`, with the network modelled by the `api`
oracle.  The boolean records whether the outbound request was performed. -/
def image_generate (prompt : String) (api : Except String ApiResponse) :
    GenResult × Bool :=
  if !image_validate_input prompt then
    (⟨false, none, some "Prompt inválido o contiene contenido inapropiado"⟩, false)
  else
    match api with
    | .error e => (⟨false, none, some e⟩, true)
    | .ok r =>
      if r.status_code = 200 then (⟨true, some r.body_b64, none⟩, true)
      else (⟨false, none,
        some ("Error de API: " ++ toString r.status_code ++ " - " ++ r.text)⟩, true)

/-! ### The recommendation `generate` endpoint (`search/api_views.py`) -/

/-- The optional base64 image computed by the endpoint: an image is
requested only when `generate_image` is set, the recommended product text
is truthy and does not contain `"No encontré"`; the image generator is
then called on the product name (the part before the first colon,
stripped) and its content kept only on success. -/
def ai_imagen_b64 (producto : String) (generate_image : Bool)
    (image_api : Except String ApiResponse) : Option String :=
  if generate_image && decide (producto ≠ "") && !(strContains producto "No encontré") then
    let producto_nombre := pyStrip ((producto.splitOn ":").headD "")
    let ir := (image_generate producto_nombre image_api).1
    if ir.success then ir.content else none
  else none

/-- The `imagen_url` stored with the recommendation:
`f"data:image/png;base64,{imagen_b64}" if imagen_b64 else ""`. -/
def imagen_url_of : Option String → String
  | some s => if s ≠ "" then "data:image/png;base64," ++ s else ""
  | none => ""

/-- Outcome of the endpoint: whether it answered success, the stored
recommendation row, if any, and the base64 image, if any. -/
structure GenerateOutcome where
  ok : Bool
  saved : Option Recomendacion
  imagen : Option String
deriving DecidableEq, Repr

/-- `AIRecommendationViewSet.generate` after input validation, with the
text-generation result and the image API response as oracles: on text
failure answer an error and store nothing; otherwise optionally generate
an image and store the recommendation row. -/
def ai_generate (descripcion : String) (generate_image : Bool)
    (text_result : GenResult) (image_api : Except String ApiResponse) :
    GenerateOutcome :=
  if !text_result.success then ⟨false, none, none⟩
  else
    let producto := text_result.content.getD ""
    let b64 := ai_imagen_b64 producto generate_image image_api
    ⟨true, some ⟨descripcion, producto, imagen_url_of b64⟩, b64⟩

/-- A small concrete product table used to instantiate the theorems. -/
def sampleDb : List Product :=
  [⟨1, "Laptop Gamer", "Electrónicos", 3500, ["img1.png"]⟩,
   ⟨2, "Mouse inalámbrico", "Electrónicos", 80, []⟩,
   ⟨3, "Cuaderno profesional", "Papelería", 12, []⟩,
   ⟨4, "laptop", "Computación", 2000, []⟩]

/-! ### Helper lemmas about the string primitives -/

theorem trimChars_eq_nil_iff (l : List Char) :
    trimChars l = [] ↔ ∀ c ∈ l, c.isWhitespace = true := by
  unfold trimChars
  rw [List.reverse_eq_nil_iff, List.dropWhile_eq_nil_iff]
  constructor
  · intro h c hc
    rcases List.mem_append.1
        ((List.takeWhile_append_dropWhile (p := Char.isWhitespace) (l := l)) ▸ hc) with
        h1 | h2
    · exact List.mem_takeWhile_imp h1
    · exact h _ (List.mem_reverse.2 h2)
  · intro h c hc
    have : c ∈ l.dropWhile Char.isWhitespace := List.mem_reverse.1 hc
    exact h c ((List.dropWhile_sublist Char.isWhitespace).mem this)

theorem pyStrip_eq_empty_iff (s : String) :
    pyStrip s = "" ↔ ∀ c ∈ s.data, c.isWhitespace = true := by
  unfold pyStrip
  rw [show ("" : String) = String.mk [] from rfl, String.ext_iff]
  exact trimChars_eq_nil_iff s.data

theorem isWhitespace_toLower (c : Char) :
    c.toLower.isWhitespace = c.isWhitespace := by
  by_cases h : c.toNat ≥ 65 ∧ c.toNat ≤ 90
  · obtain ⟨h1, h2⟩ := h
    rw [← Char.ofNat_toNat c]
    revert h1 h2
    generalize c.toNat = n
    intro h1 h2
    interval_cases n <;> decide
  · have hid : c.toLower = c := by
      simp only [Char.toLower]
      rw [if_neg h]
    rw [hid]

theorem wordsAux_ne_nil_of_cur (l : List Char) (cur : List Char) (h : cur ≠ []) :
    wordsAux cur l ≠ [] := by
  induction l generalizing cur with
  | nil =>
    simp only [wordsAux]
    rw [if_neg (by simpa using h)]
    simp
  | cons c rest ih =>
    simp only [wordsAux]
    by_cases hws : c.isWhitespace
    · rw [if_pos hws, if_neg (by simpa using h)]
      simp
    · rw [if_neg hws]
      exact ih (c :: cur) (by simp)

theorem wordsAux_ne_nil (l : List Char) (cur : List Char)
    (h : ∃ c ∈ l, c.isWhitespace = false) :
    wordsAux cur l ≠ [] := by
  induction l generalizing cur with
  | nil => simp at h
  | cons c rest ih =>
    obtain ⟨d, hd, hdws⟩ := h
    simp only [wordsAux]
    by_cases hws : c.isWhitespace
    · have hdr : d ∈ rest := by
        rcases List.mem_cons.1 hd with rfl | h
        · rw [hws] at hdws; cases hdws
        · exact h
      rw [if_pos hws]
      by_cases hcur : cur.isEmpty
      · rw [if_pos hcur]
        exact ih [] ⟨d, hdr, hdws⟩
      · rw [if_neg hcur]
        simp
    · rw [if_neg hws]
      exact wordsAux_ne_nil_of_cur rest (c :: cur) (by simp)

theorem queryWords_ne_nil (query : String)
    (h : ∃ c ∈ query.data, c.isWhitespace = false) :
    queryWords query ≠ [] := by
  unfold queryWords pyWords
  obtain ⟨c, hc, hcws⟩ := h
  have hmem : Char.toLower c ∈ (pyLower query).data :=
    List.mem_map_of_mem Char.toLower hc
  have hws : (Char.toLower c).isWhitespace = false := by
    rw [isWhitespace_toLower]; exact hcws
  intro hnil
  exact wordsAux_ne_nil (pyLower query).data [] ⟨_, hmem, hws⟩
    (List.map_eq_nil_iff.1 hnil)

theorem pyStrip_ne_empty (query : String)
    (h : ∃ c ∈ query.data, c.isWhitespace = false) :
    pyStrip query ≠ "" := by
  intro he
  obtain ⟨c, hc, hcws⟩ := h
  rw [(pyStrip_eq_empty_iff query).1 he c hc] at hcws
  cases hcws

/-! ### Claim C2 -/

/-- C2: `SearchStrategyFactory.create_strategy` is a dictionary dispatch
over exactly the five keys `exact`, `contains`, `fuzzy`, `price_range`,
`category`, returning the corresponding strategy, and it raises
`ValueError` for every other string key. -/
theorem create_strategy_dispatch :
    create_strategy "exact" = .ok .exact ∧
    create_strategy "contains" = .ok .contains ∧
    create_strategy "fuzzy" = .ok .fuzzy ∧
    create_strategy "price_range" = .ok .price_range ∧
    create_strategy "category" = .ok .category ∧
    ∀ s : String, s ∉ available_strategies → ∃ msg, create_strategy s = .error msg := by
  refine ⟨rfl, rfl, rfl, rfl, rfl, ?_⟩
  intro s hs
  simp only [available_strategies, List.mem_cons, List.not_mem_nil, or_false,
    not_or] at hs
  obtain ⟨h1, h2, h3, h4, h5⟩ := hs
  exact ⟨"Estrategia " ++ s ++
    " no soportada. Disponibles: exact, contains, fuzzy, price_range, category",
    by simp [create_strategy, h1, h2, h3, h4, h5]⟩

/-- Witness for C2: the key `"bogus"` is not among the five and yields an
error. -/
theorem create_strategy_dispatch_witness :
    "bogus" ∉ available_strategies ∧
      ∃ msg, create_strategy "bogus" = .error msg :=
  ⟨by decide, create_strategy_dispatch.2.2.2.2.2 "bogus" (by decide)⟩

/-! ### Claim C3 -/

/-- C3: `AIGeneratorFactory.create_generator` is a dictionary dispatch
over exactly the two keys `text` and `image`, returning the text and the
image generator respectively, and it raises `ValueError` for every other
string key. -/
theorem create_generator_dispatch :
    create_generator "text" = .ok .text ∧
    create_generator "image" = .ok .image ∧
    ∀ s : String, s ≠ "text" → s ≠ "image" → ∃ msg, create_generator s = .error msg := by
  refine ⟨rfl, rfl, ?_⟩
  intro s h1 h2
  exact ⟨"Tipo de generador " ++ s ++ " no soportado. Tipos disponibles: text, image",
    by simp [create_generator, h1, h2]⟩

/-- Witness for C3: the key `"audio"` yields an error. -/
theorem create_generator_dispatch_witness :
    ("audio" : String) ≠ "text" ∧ ("audio" : String) ≠ "image" ∧
      ∃ msg, create_generator "audio" = .error msg :=
  ⟨by decide, by decide,
    create_generator_dispatch.2.2 "audio" (by decide) (by decide)⟩

/-! ### Claim C4 -/

/-- C4: whenever the configured strategy's `search` raises,
`SearchContext.execute_search` never propagates the exception: it returns
a dictionary with `success` false, the exception's message as the error,
an empty result set and count 0, still reporting the strategy name and
the original query. -/
theorem execute_search_catches (impl : StrategyImpl) (qs : List Product)
    (query : String) (params : SearchParams) (e : String)
    (h : impl.run qs query params = .error e) :
    execute_search impl qs query params =
      ⟨false, some e, [], 0, impl.name, query⟩ := by
  unfold execute_search
  rw [h]

/-- Witness for C4: a strategy that always raises `"boom"`. -/
theorem execute_search_catches_witness :
    StrategyImpl.run ⟨"fails", fun _ _ _ => .error "boom"⟩ [] "q" ⟨none, none, none⟩ =
        .error "boom" ∧
      execute_search ⟨"fails", fun _ _ _ => .error "boom"⟩ [] "q" ⟨none, none, none⟩ =
        ⟨false, some "boom", [], 0, "fails", "q"⟩ :=
  ⟨rfl, execute_search_catches _ _ _ _ "boom" rfl⟩

/-! ### Claim C6 -/

/-- C6: `PriceRangeStrategy.search` ignores the text query argument and
filters by `min_price ≤ price ≤ max_price` when both bounds are supplied,
by the single supplied bound when only one is, and returns the queryset
unchanged when neither is supplied. -/
theorem price_range_search_spec (qs : List Product) (q q' : String) (mn mx : ℚ) :
    (∀ a b, price_range_search qs q a b = price_range_search qs q' a b) ∧
    (∀ p, p ∈ price_range_search qs q (some mn) (some mx) ↔
      p ∈ qs ∧ mn ≤ p.price ∧ p.price ≤ mx) ∧
    (∀ p, p ∈ price_range_search qs q (some mn) none ↔ p ∈ qs ∧ mn ≤ p.price) ∧
    (∀ p, p ∈ price_range_search qs q none (some mx) ↔ p ∈ qs ∧ p.price ≤ mx) ∧
    price_range_search qs q none none = qs := by
  refine ⟨?_, ?_, ?_, ?_, rfl⟩
  · intro a b
    cases a <;> cases b <;> rfl
  · intro p
    simp [price_range_search, List.mem_filter, and_assoc]
  · intro p
    simp [price_range_search, List.mem_filter]
  · intro p
    simp [price_range_search, List.mem_filter]

/-! ### Claim C7 -/

/-- C7: on a query with at least one non-whitespace character, the exact
strategy returns exactly the products whose name or category equals the
query ignoring case and the contains strategy exactly those whose name or
category contains the query ignoring case; on an all-whitespace query both
return the empty result set. -/
theorem exact_contains_search_spec (qs : List Product) (query : String) :
    ((∃ c ∈ query.data, c.isWhitespace = false) →
      (∀ p, p ∈ exact_match_search qs query ↔
        p ∈ qs ∧ (pyLower p.name = pyLower query ∨ pyLower p.category = pyLower query)) ∧
      (∀ p, p ∈ contains_search qs query ↔
        p ∈ qs ∧ (strContainsCI p.name query = true ∨ strContainsCI p.category query = true))) ∧
    ((∀ c ∈ query.data, c.isWhitespace = true) →
      exact_match_search qs query = [] ∧ contains_search qs query = []) := by
  constructor
  · intro h
    have hne : ¬(pyStrip query = "") := pyStrip_ne_empty query h
    constructor
    · intro p
      unfold exact_match_search
      rw [if_neg hne]
      simp [List.mem_filter]
    · intro p
      unfold contains_search
      rw [if_neg hne]
      simp [List.mem_dedup, List.mem_filter]
  · intro h
    have he : pyStrip query = "" := (pyStrip_eq_empty_iff query).2 h
    unfold exact_match_search contains_search
    rw [if_pos he, if_pos he]
    exact ⟨rfl, rfl⟩

/-- Witness for C7: a concrete non-whitespace query and a concrete
whitespace query over the sample table. -/
theorem exact_contains_search_spec_witness :
    ((∃ c ∈ "Laptop".data, c.isWhitespace = false) ∧
      Product.mk 1 "Laptop Gamer" "Electrónicos" 3500 ["img1.png"] ∈
        contains_search sampleDb "Laptop") ∧
    ((∀ c ∈ "  ".data, c.isWhitespace = true) ∧
      exact_match_search sampleDb "  " = [] ∧ contains_search sampleDb "  " = []) :=
  ⟨⟨by decide,
    (((exact_contains_search_spec sampleDb "Laptop").1 (by decide)).2
      (Product.mk 1 "Laptop Gamer" "Electrónicos" 3500 ["img1.png"])).mpr (by decide)⟩,
   ⟨by decide, (exact_contains_search_spec sampleDb "  ").2 (by decide)⟩⟩

/-! ### Claim C9 -/

/-- C9: `ImageGenerator.generate` answers failure with no content and
performs no outbound request whenever the prompt is empty or
whitespace-only or its lowercasing contains a forbidden substring, and the
outbound request is performed only when validation passes. -/
theorem image_generate_validation_spec (prompt : String)
    (api : Except String ApiResponse) :
    (((∀ c ∈ prompt.data, c.isWhitespace = true) ∨
        (∃ w ∈ forbidden_words, strContains (pyLower prompt) w = true)) →
      image_generate prompt api =
        (⟨false, none, some "Prompt inválido o contiene contenido inapropiado"⟩, false)) ∧
    ((image_generate prompt api).2 = true → image_validate_input prompt = true) := by
  constructor
  · intro h
    have hval : image_validate_input prompt = false := by
      unfold image_validate_input
      rcases h with h | ⟨w, hw, hcont⟩
      · rw [if_pos ((pyStrip_eq_empty_iff prompt).2 h)]
      · by_cases hs : pyStrip prompt = ""
        · rw [if_pos hs]
        · rw [if_neg hs]
          have : (forbidden_words.any fun w => strContains (pyLower prompt) w) = true :=
            List.any_eq_true.2 ⟨w, hw, hcont⟩
          rw [this]
          rfl
    unfold image_generate
    rw [hval]
    rfl
  · intro h
    by_contra hv
    have hval : image_validate_input prompt = false := Bool.not_eq_true _ ▸ Bool.eq_false_iff.2 hv
    unfold image_generate at h
    rw [hval] at h
    cases h

/-- Witness for C9: a whitespace prompt, a forbidden prompt, and a valid
prompt that does reach the (failing) network. -/
theorem image_generate_validation_spec_witness :
    ((∀ c ∈ "   ".data, c.isWhitespace = true) ∧
      image_generate "   " (.error "down") =
        (⟨false, none, some "Prompt inválido o contiene contenido inapropiado"⟩, false)) ∧
    ((∃ w ∈ forbidden_words, strContains (pyLower "Una Weapon de juguete") w = true) ∧
      image_generate "Una Weapon de juguete" (.ok ⟨200, "abc", "raw"⟩) =
        (⟨false, none, some "Prompt inválido o contiene contenido inapropiado"⟩, false)) ∧
    ((image_generate "laptop" (.error "down")).2 = true ∧
      image_validate_input "laptop" = true) :=
  ⟨⟨by decide, (image_generate_validation_spec "   " (.error "down")).1 (Or.inl (by decide))⟩,
   ⟨by decide,
    (image_generate_validation_spec "Una Weapon de juguete" (.ok ⟨200, "abc", "raw"⟩)).1
      (Or.inr (by decide))⟩,
   ⟨by decide, (image_generate_validation_spec "laptop" (.error "down")).2 (by decide)⟩⟩

/-! ### Claim C10 -/

theorem create_product_not_post (db : List Product) (method : String)
    (name : Option String) (h : method ≠ "POST") :
    create_product db method name = (db, false, some "Método no permitido") := by
  unfold create_product
  rw [if_neg h]

theorem create_product_post_none (db : List Product) :
    create_product db "POST" none = (db, false, some "Producto ya existe") := rfl

theorem create_product_post_some (db : List Product) (n : String) :
    create_product db "POST" (some n) =
      if (decide (n ≠ "") && !(db.any fun p => p.name == n)) = true then
        (db ++ [⟨next_id db, n, "Desconocida", 0, []⟩], true, none)
      else (db, false, some "Producto ya existe") := rfl

/-- C10: `create_product` inserts exactly on a POST supplying a non-empty
name no existing product has (the new row getting category
`"Desconocida"`, price `0.0` and an empty image list); in every other
case it answers failure and leaves the table unchanged, so it never
introduces a duplicate product name. -/
theorem create_product_spec (db : List Product) (method : String)
    (name : Option String) :
    (∀ n, method = "POST" → name = some n → n ≠ "" → (∀ p ∈ db, p.name ≠ n) →
      create_product db method name =
        (db ++ [⟨next_id db, n, "Desconocida", 0, []⟩], true, none)) ∧
    (¬(method = "POST" ∧ ∃ n, name = some n ∧ n ≠ "" ∧ ∀ p ∈ db, p.name ≠ n) →
      (create_product db method name).2.1 = false ∧
      (create_product db method name).1 = db) ∧
    ((db.map Product.name).Nodup →
      ((create_product db method name).1.map Product.name).Nodup) := by
  refine ⟨?_, ?_, ?_⟩
  · intro n hm hn hne hfresh
    subst hm
    subst hn
    have hany : (db.any fun p => p.name == n) = false := by
      rw [Bool.eq_false_iff]
      intro h
      obtain ⟨p, hp, hbeq⟩ := List.any_eq_true.1 h
      exact hfresh p hp (by simpa using hbeq)
    simp [create_product, hany, hne]
  · intro h
    by_cases hm : method = "POST"
    · subst hm
      cases name with
      | none =>
        rw [create_product_post_none]
        exact ⟨rfl, rfl⟩
      | some n =>
        rw [create_product_post_some]
        have hcond : ¬((decide (n ≠ "") && !(db.any fun p => p.name == n)) = true) := by
          intro hc
          rw [Bool.and_eq_true] at hc
          obtain ⟨h1, h2⟩ := hc
          refine h ⟨rfl, n, rfl, of_decide_eq_true h1, ?_⟩
          intro p hp hpn
          have hany : (db.any fun p => p.name == n) = true :=
            List.any_eq_true.2 ⟨p, hp, by simp [hpn]⟩
          rw [hany] at h2
          cases h2
        rw [if_neg hcond]
        exact ⟨rfl, rfl⟩
    · rw [create_product_not_post db method name hm]
      exact ⟨rfl, rfl⟩
  · intro hnd
    by_cases hm : method = "POST"
    · subst hm
      cases name with
      | none =>
        rw [create_product_post_none]
        exact hnd
      | some n =>
        rw [create_product_post_some]
        by_cases hc : (decide (n ≠ "") && !(db.any fun p => p.name == n)) = true
        · rw [if_pos hc]
          rw [Bool.and_eq_true] at hc
          obtain ⟨h1, h2⟩ := hc
          have hfresh : n ∉ db.map Product.name := by
            intro hmem
            obtain ⟨p, hp, hpn⟩ := List.mem_map.1 hmem
            have hany : (db.any fun p => p.name == n) = true :=
              List.any_eq_true.2 ⟨p, hp, by simp [hpn]⟩
            rw [hany] at h2
            cases h2
          simp only [List.map_append, List.map_cons, List.map_nil]
          rw [List.nodup_append]
          refine ⟨hnd, List.nodup_singleton n, ?_⟩
          intro a ha hb
          rw [List.mem_singleton] at hb
          subst hb
          exact hfresh ha
        · rw [if_neg hc]
          exact hnd
    · rw [create_product_not_post db method name hm]
      exact hnd

/-- Witness for C10: inserting a fresh name succeeds and appends the row,
a GET leaves the table unchanged, and name uniqueness is preserved. -/
theorem create_product_spec_witness :
    ((∀ p ∈ sampleDb, p.name ≠ "Teclado") ∧
      create_product sampleDb "POST" (some "Teclado") =
        (sampleDb ++ [⟨next_id sampleDb, "Teclado", "Desconocida", 0, []⟩], true, none)) ∧
    ((create_product sampleDb "GET" (some "Teclado")).2.1 = false ∧
      (create_product sampleDb "GET" (some "Teclado")).1 = sampleDb) ∧
    ((sampleDb.map Product.name).Nodup ∧
      ((create_product sampleDb "POST" (some "Teclado")).1.map Product.name).Nodup) :=
  ⟨⟨by decide,
    (create_product_spec sampleDb "POST" (some "Teclado")).1 "Teclado" rfl rfl
      (by decide) (by decide)⟩,
   (create_product_spec sampleDb "GET" (some "Teclado")).2.1
     (fun hcontra => absurd hcontra.1 (by decide)),
   ⟨by decide, (create_product_spec sampleDb "POST" (some "Teclado")).2.2 (by decide)⟩⟩

/-! ### Claim C5 -/

/-- C5: on a query with at least one non-whitespace character, the fuzzy
strategy returns exactly the products whose name or category contains
(case-insensitively) at least one of the lowercased query words, ordered
by non-increasing term-overlap relevance score (3 per word in the name,
2 per word in the category, plus 5 per word equal to the whole lowercased
name). -/
theorem fuzzy_search_spec (qs : List Product) (query : String)
    (h : ∃ c ∈ query.data, c.isWhitespace = false) :
    (∀ p, p ∈ fuzzy_search qs query ↔
      p ∈ qs ∧ fuzzyMatches (queryWords query) p = true) ∧
    (fuzzy_search qs query).Pairwise
      (fun a b => relevance (queryWords query) b ≤ relevance (queryWords query) a) := by
  have hne : ¬(pyStrip query = "") := pyStrip_ne_empty query h
  have hw : queryWords query ≠ [] := queryWords_ne_nil query h
  have hni : (queryWords query).isEmpty = false := by
    cases hqw : queryWords query with
    | nil => exact absurd hqw hw
    | cons w ws => rfl
  have hfe : fuzzy_search qs query =
      order_by_relevance ((qs.filter (fuzzyMatches (queryWords query))).dedup)
        (queryWords query) := by
    unfold fuzzy_search
    rw [if_neg hne]
    simp only [hni, Bool.false_eq_true, if_false]
  constructor
  · intro p
    rw [hfe]
    unfold order_by_relevance
    rw [(List.mergeSort_perm _ _).mem_iff, List.mem_dedup, List.mem_filter]
  · rw [hfe]
    unfold order_by_relevance
    refine List.Pairwise.imp (fun hab => of_decide_eq_true hab)
      (List.sorted_mergeSort ?_ ?_ ((qs.filter (fuzzyMatches (queryWords query))).dedup))
    · intro a b c h1 h2
      simp only [decide_eq_true_eq] at h1 h2 ⊢
      exact le_trans h2 h1
    · intro a b
      rcases le_total (relevance (queryWords query) b) (relevance (queryWords query) a)
        with hab | hab <;> simp [hab]

/-- Witness for C5: the two-word query `"laptop gamer"` over the sample
table. -/
theorem fuzzy_search_spec_witness :
    (∃ c ∈ "laptop gamer".data, c.isWhitespace = false) ∧
    ((∀ p, p ∈ fuzzy_search sampleDb "laptop gamer" ↔
        p ∈ sampleDb ∧ fuzzyMatches (queryWords "laptop gamer") p = true) ∧
      (fuzzy_search sampleDb "laptop gamer").Pairwise
        (fun a b => relevance (queryWords "laptop gamer") b ≤
          relevance (queryWords "laptop gamer") a)) :=
  ⟨by decide, fuzzy_search_spec sampleDb "laptop gamer" (by decide)⟩

/-! ### Claim C8 -/

/-- C8: on every successful text generation, the `generate` endpoint
stores a `Recomendacion` row pairing the user-supplied `descripcion` with
the generated text, whose `imagen_url` is the base64 data URL when an
image was generated and the empty string when none was. -/
theorem ai_generate_saves_recommendation (descripcion : String)
    (generate_image : Bool) (text_result : GenResult)
    (image_api : Except String ApiResponse) (t : String)
    (hs : text_result.success = true) (hc : text_result.content = some t) :
    ∃ r, (ai_generate descripcion generate_image text_result image_api).saved = some r ∧
      r.descripcion = descripcion ∧
      r.producto_recomendado = t ∧
      (∀ s, (ai_generate descripcion generate_image text_result image_api).imagen = some s →
        s ≠ "" → r.imagen_url = "data:image/png;base64," ++ s) ∧
      (truthyStr (ai_generate descripcion generate_image text_result image_api).imagen = false →
        r.imagen_url = "") := by
  have hred : ai_generate descripcion generate_image text_result image_api =
      ⟨true, some ⟨descripcion, t, imagen_url_of (ai_imagen_b64 t generate_image image_api)⟩,
        ai_imagen_b64 t generate_image image_api⟩ := by
    unfold ai_generate
    rw [hs, hc]
    rfl
  refine ⟨⟨descripcion, t, imagen_url_of (ai_imagen_b64 t generate_image image_api)⟩,
    by rw [hred], rfl, rfl, ?_, ?_⟩
  · intro s hsome hne
    rw [hred] at hsome
    have hb : ai_imagen_b64 t generate_image image_api = some s := hsome
    show imagen_url_of (ai_imagen_b64 t generate_image image_api) = _
    rw [hb]
    simp only [imagen_url_of]
    rw [if_pos hne]
  · intro hfalse
    rw [hred] at hfalse
    have hf : truthyStr (ai_imagen_b64 t generate_image image_api) = false := hfalse
    show imagen_url_of (ai_imagen_b64 t generate_image image_api) = ""
    cases hb : ai_imagen_b64 t generate_image image_api with
    | none => rfl
    | some s =>
      rw [hb] at hf
      have hse : s = "" := by
        by_contra hsne
        simp [truthyStr, hsne] at hf
      subst hse
      rfl

/-- Witness for C8: a successful text generation with a failing image
network call stores the row with an empty `imagen_url`. -/
theorem ai_generate_saves_recommendation_witness :
    (GenResult.mk true (some "Laptop gamer: potente y ligera") none).success = true ∧
    (GenResult.mk true (some "Laptop gamer: potente y ligera") none).content =
      some "Laptop gamer: potente y ligera" ∧
    ∃ r, (ai_generate "necesito un equipo para juegos" true
        ⟨true, some "Laptop gamer: potente y ligera", none⟩ (.error "down")).saved = some r ∧
      r.descripcion = "necesito un equipo para juegos" ∧
      r.producto_recomendado = "Laptop gamer: potente y ligera" ∧
      (∀ s, (ai_generate "necesito un equipo para juegos" true
          ⟨true, some "Laptop gamer: potente y ligera", none⟩ (.error "down")).imagen = some s →
        s ≠ "" → r.imagen_url = "data:image/png;base64," ++ s) ∧
      (truthyStr (ai_generate "necesito un equipo para juegos" true
          ⟨true, some "Laptop gamer: potente y ligera", none⟩ (.error "down")).imagen = false →
        r.imagen_url = "") :=
  ⟨rfl, rfl,
    ai_generate_saves_recommendation "necesito un equipo para juegos" true
      ⟨true, some "Laptop gamer: potente y ligera", none⟩ (.error "down")
      "Laptop gamer: potente y ligera" rfl rfl⟩

/-! ### Claim C1

The claim as frozen says that the price_range strategy is used whenever
`min_price` or `max_price` is *supplied*.  In `advanced_search` the
validated bounds are decimals and the branch tests Python truthiness
(`if min_price or max_price:`), so a supplied `min_price` of `0` — which
the serializer accepts — does **not** select the price_range strategy.
The amended statement requires the supplied value to be truthy. -/

theorem create_strategy_mem (s : String) (k : StrategyKind)
    (h : create_strategy s = .ok k) :
    available_strategies.contains s = true := by
  by_cases h1 : s = "exact"
  · subst h1; rfl
  · by_cases h2 : s = "contains"
    · subst h2; rfl
    · by_cases h3 : s = "fuzzy"
      · subst h3; rfl
      · by_cases h4 : s = "price_range"
        · subst h4; rfl
        · by_cases h5 : s = "category"
          · subst h5; rfl
          · exfalso
            unfold create_strategy at h
            rw [if_neg h1, if_neg h2, if_neg h3, if_neg h4, if_neg h5] at h
            cases h

/-- Counterexample to C1 as stated: in `advanced_search`, the supplied
bound `min_price = 0` is falsy, so the `contains` strategy is selected
instead of `price_range`, and the computed result (empty, since the query
is blank) differs from what the price_range strategy would return (the
whole table). -/
theorem advanced_search_min_price_zero_counterexample :
    advanced_select "" "contains" (some 0) none = StrategyKind.contains ∧
    StrategyKind.contains ≠ StrategyKind.price_range ∧
    advanced_search_results sampleDb "" "" "contains" (some 0) none = [] ∧
    price_range_search sampleDb "" (some 0) none = sampleDb := by
  exact ⟨by decide, by decide, by decide, by decide⟩

/-- C1 (amended): both views pick exactly one of the five strategies: the
price_range strategy exactly when `min_price` or `max_price` is supplied
with a truthy value (non-empty string in the template view, nonzero
decimal in the API view) — the API view then applying the extra
case-insensitive name-contains filter when a text query is present —
otherwise the category strategy when `category` is non-empty, otherwise
the strategy named by `search_type`, falling back to `contains` whenever
`search_type` is not one of the five strategy names. -/
theorem strategy_selection_spec (db : List Product) (q category search_type : String)
    (ms mx : Option String) (mq mxq : Option ℚ) :
    ((truthyStr ms = true ∨ truthyStr mx = true) →
      search_products_select category search_type ms mx = StrategyKind.price_range) ∧
    (truthyStr ms = false → truthyStr mx = false → category ≠ "" →
      search_products_select category search_type ms mx = StrategyKind.category) ∧
    (truthyStr ms = false → truthyStr mx = false → category = "" →
      ∀ k, create_strategy search_type = .ok k →
        search_products_select category search_type ms mx = k) ∧
    (truthyStr ms = false → truthyStr mx = false → category = "" →
      search_type ∉ available_strategies →
        search_products_select category search_type ms mx = StrategyKind.contains) ∧
    ((truthyQ mq = true ∨ truthyQ mxq = true) →
      advanced_select category search_type mq mxq = StrategyKind.price_range ∧
      advanced_search_results db q category search_type mq mxq =
        (if q ≠ "" then
          (price_range_search db q (if truthyQ mq then mq else none)
            (if truthyQ mxq then mxq else none)).filter
            (fun p => strContainsCI p.name q)
        else
          price_range_search db q (if truthyQ mq then mq else none)
            (if truthyQ mxq then mxq else none))) ∧
    (truthyQ mq = false → truthyQ mxq = false → category ≠ "" →
      advanced_select category search_type mq mxq = StrategyKind.category ∧
      advanced_search_results db q category search_type mq mxq =
        category_search db q (some category)) ∧
    (truthyQ mq = false → truthyQ mxq = false → category = "" →
      ∀ k, create_strategy search_type = .ok k →
        advanced_select category search_type mq mxq = k ∧
        advanced_search_results db q category search_type mq mxq =
          strategy_search k db q ⟨none, none, none⟩) ∧
    (truthyQ mq = false → truthyQ mxq = false → category = "" →
      search_type ∉ available_strategies →
        advanced_select category search_type mq mxq = StrategyKind.contains ∧
        advanced_search_results db q category search_type mq mxq =
          contains_search db q) := by
  refine ⟨?_, ?_, ?_, ?_, ?_, ?_, ?_, ?_⟩
  · intro h
    unfold search_products_select
    rcases h with h | h
    · rw [if_pos (by rw [h, Bool.true_or])]
    · rw [if_pos (by rw [h, Bool.or_true])]
  · intro hms hmx hcat
    unfold search_products_select
    rw [if_neg (by simp [hms, hmx]), if_pos hcat]
  · intro hms hmx hcat k hok
    unfold search_products_select
    rw [if_neg (by simp [hms, hmx]), if_neg (by simp [hcat]),
      if_pos (create_strategy_mem search_type k hok), hok]
  · intro hms hmx hcat hmem
    unfold search_products_select
    rw [if_neg (by simp [hms, hmx]), if_neg (by simp [hcat]),
      if_neg (by simpa using hmem)]
    rfl
  · intro h
    constructor
    · unfold advanced_select
      rcases h with h | h
      · rw [if_pos (by rw [h, Bool.true_or])]
      · rw [if_pos (by rw [h, Bool.or_true])]
    · unfold advanced_search_results
      rcases h with h | h
      · rw [if_pos (by rw [h, Bool.true_or])]
      · rw [if_pos (by rw [h, Bool.or_true])]
  · intro hms hmx hcat
    constructor
    · unfold advanced_select
      rw [if_neg (by simp [hms, hmx]), if_pos hcat]
    · unfold advanced_search_results
      rw [if_neg (by simp [hms, hmx]), if_pos hcat]
  · intro hms hmx hcat k hok
    constructor
    · unfold advanced_select
      rw [if_neg (by simp [hms, hmx]), if_neg (by simp [hcat]),
        if_pos (create_strategy_mem search_type k hok), hok]
    · unfold advanced_search_results
      rw [if_neg (by simp [hms, hmx]), if_neg (by simp [hcat]),
        if_pos (create_strategy_mem search_type k hok), hok]
  · intro hms hmx hcat hmem
    constructor
    · unfold advanced_select
      rw [if_neg (by simp [hms, hmx]), if_neg (by simp [hcat]),
        if_neg (by simpa using hmem)]
      rfl
    · unfold advanced_search_results
      rw [if_neg (by simp [hms, hmx]), if_neg (by simp [hcat]),
        if_neg (by simpa using hmem)]
      rfl

/-- Witness for C1 (amended): each branch of the selection at concrete
parameters. -/
theorem strategy_selection_spec_witness :
    truthyStr (some "10") = true ∧
    search_products_select "" "contains" (some "10") none = StrategyKind.price_range ∧
    search_products_select "Ropa" "contains" (none : Option String) none =
      StrategyKind.category ∧
    search_products_select "" "fuzzy" (none : Option String) none = StrategyKind.fuzzy ∧
    search_products_select "" "weird" (none : Option String) none = StrategyKind.contains ∧
    truthyQ (some 10) = true ∧
    advanced_select "" "contains" (some 10) none = StrategyKind.price_range ∧
    advanced_select "Ropa" "contains" (none : Option ℚ) none = StrategyKind.category ∧
    advanced_select "" "exact" (none : Option ℚ) none = StrategyKind.exact ∧
    advanced_select "" "weird" (none : Option ℚ) none = StrategyKind.contains :=
  ⟨by decide,
   (strategy_selection_spec sampleDb "q" "" "contains" (some "10") none none none).1
     (Or.inl (by decide)),
   (strategy_selection_spec sampleDb "q" "Ropa" "contains" none none none none).2.1
     (by decide) (by decide) (by decide),
   (strategy_selection_spec sampleDb "q" "" "fuzzy" none none none none).2.2.1
     (by decide) (by decide) rfl StrategyKind.fuzzy rfl,
   (strategy_selection_spec sampleDb "q" "" "weird" none none none none).2.2.2.1
     (by decide) (by decide) rfl (by decide),
   by decide,
   ((strategy_selection_spec sampleDb "q" "" "contains" none none (some 10) none).2.2.2.2.1
     (Or.inl (by decide))).1,
   ((strategy_selection_spec sampleDb "q" "Ropa" "contains" none none none none).2.2.2.2.2.1
     (by decide) (by decide) (by decide)).1,
   ((strategy_selection_spec sampleDb "q" "" "exact" none none none none).2.2.2.2.2.2.1
     (by decide) (by decide) rfl StrategyKind.exact rfl).1,
   ((strategy_selection_spec sampleDb "q" "" "weird" none none none none).2.2.2.2.2.2.2
     (by decide) (by decide) rfl (by decide)).1⟩

end Taller1
